import Mathlib

/-!
Shallow embedding of the swarm-agent workflow/consensus engine's server code.

The repository's server consists of two generations of a database layer
(`src/unnamed/part_006` and `src/unnamed/part_007`, both versions of
`server/db.ts`) and the tRPC routers (`src/server/routers.ts`) that forward
to them.  We embed the part_006 layer as namespace `DB6` and the part_007
layer as namespace `DB7`.  The database handle (`getDb`) is modelled by a
`dbAvailable` flag on the state; `nanoid` id generation and `new Date()`
timestamps are modelled by a logical counter on the state.  JSON blob
payloads (`Record<string, unknown>`) are modelled as association lists of
strings, which the operations treat opaquely, exactly as the code does.
-/

/-- JavaScript's `x || d` for an optional string: `undefined` and `""` are falsy. -/
def jsOrString (o : Option String) (d : String) : String :=
  match o with
  | none => d
  | some v => if v = "" then d else v

/-- JavaScript's `x || d` for an optional number: `undefined` and `0` are falsy. -/
def jsOrNat (o : Option Nat) (d : Nat) : Nat :=
  match o with
  | none => d
  | some v => if v = 0 then d else v

/-- JavaScript's `x || d` for an optional rational: `undefined` and `0` are falsy. -/
def jsOrRat (o : Option Rat) (d : Rat) : Rat :=
  match o with
  | none => d
  | some v => if v = 0 then d else v

/-- An opaque JSON object (`Record<string, unknown>`), stored verbatim by the code. -/
structure JsonObject where
  entries : List (String × String)
deriving DecidableEq

/-- Agent type enum (`reasoning | execution | coordination | analysis`). -/
inductive AgentType
  | reasoning | execution | coordination | analysis
deriving DecidableEq

/-- Agent status enum (`active | inactive | error | maintenance`). -/
inductive AgentStatus
  | active | inactive | error | maintenance
deriving DecidableEq

/-- Workflow orchestration pattern enum. -/
inductive Pattern
  | hierarchical | sequential | concurrent | round_robin | mesh
deriving DecidableEq

/-- Workflow status enum (`draft | active | paused | archived`). -/
inductive WfStatus
  | draft | active | paused | archived
deriving DecidableEq

/-- Task status enum (`pending | running | completed | failed | timeout`). -/
inductive TaskStatus
  | pending | running | completed | failed | timeout
deriving DecidableEq

/-- Message type enum. -/
inductive MessageType
  | request | response | status_update | error | broadcast
deriving DecidableEq

/-- Message delivery status enum (column of the part_006 `agentMessages` table). -/
inductive DeliveryStatus
  | pending | delivered | acknowledged | failed
deriving DecidableEq

/-- Execution-log event type enum. -/
inductive EventType
  | execution | decision | error | metric | state_change
deriving DecidableEq

/-- Execution-log level enum. -/
inductive LogLevel
  | debug | info | warning | error | critical
deriving DecidableEq

/-- Alert type enum. -/
inductive AlertType
  | agent_failure | task_timeout | system_error | task_completion | performance_degradation
deriving DecidableEq

/-- Alert severity enum (`info | warning | critical`). -/
inductive Severity
  | info | warning | critical
deriving DecidableEq

namespace DB6

/-- An agent row of the part_006 `agents` table, as inserted by `createAgent`. -/
structure Agent where
  id : String
  name : String
  type : AgentType
  description : Option String
  capabilities : List String
  llmModel : Option String
  version : String
  status : AgentStatus
  healthScore : Rat
  successRate : Rat
  totalExecutions : Nat
  failedExecutions : Nat
deriving DecidableEq

/-- A workflow row of the part_006 `workflows` table, as inserted by `createWorkflow`. -/
structure Workflow where
  id : String
  name : String
  description : Option String
  orchestrationPattern : Pattern
  nodes : Option (List JsonObject)
  edges : Option (List JsonObject)
  configuration : Option JsonObject
  status : WfStatus
  templateId : Option String
deriving DecidableEq

/-- A task row of the part_006 `tasks` table, as inserted by `createTask`. -/
structure Task where
  id : String
  workflowId : String
  input : Option JsonObject
  assignedAgents : Option (List String)
  priority : Nat
  status : TaskStatus
  consensusMethod : String
  result : Option JsonObject
  retryCount : Nat
  startedAt : Option Nat
  completedAt : Option Nat
deriving DecidableEq

/-- A message row of the part_006 `agentMessages` table, as inserted by `createMessage`. -/
structure Message where
  id : String
  senderId : String
  recipientId : Option String
  taskId : Option String
  messageType : MessageType
  content : JsonObject
  deliveryStatus : DeliveryStatus
  metadata : Option JsonObject
deriving DecidableEq

/-- An execution-log row, as inserted by `createExecutionLog`. -/
structure ExecLog where
  id : String
  taskId : String
  agentId : String
  eventType : EventType
  level : LogLevel
  message : Option String
  metadata : Option JsonObject
deriving DecidableEq

/-- A system-alert row, as inserted by `createAlert`. -/
structure Alert where
  id : String
  alertType : AlertType
  severity : Severity
  title : String
  message : Option String
  relatedAgentId : Option String
  relatedTaskId : Option String
  isResolved : Bool
deriving DecidableEq

/-- The persistent state seen by the part_006 database layer.  `dbAvailable`
models whether `getDb` returns a handle or `null`; `counter` models the
`nanoid`/`Date` environment deterministically. -/
structure State where
  dbAvailable : Bool
  counter : Nat
  agents : List Agent
  workflows : List Workflow
  tasks : List Task
  messages : List Message
  logs : List ExecLog
  alerts : List Alert
deriving DecidableEq

/-- Fresh id drawn from the state's id counter (models `nanoid(36)`). -/
def freshId (s : State) : String :=
  "id-" ++ toString s.counter

/-- Input of `createAgent` (part_006). -/
structure AgentInput where
  name : String
  type : AgentType
  description : Option String
  capabilities : Option (List String)
  llmModel : Option String
  version : Option String
deriving DecidableEq

/-- `createAgent` (part_006 lines 101-141): inserts an agent row with
status `active`, healthScore 100, successRate 100 and zeroed counters. -/
def createAgent (ad : AgentInput) (s : State) : Except String State :=
  if !s.dbAvailable then Except.error "Database not available" else
  Except.ok { s with
    counter := s.counter + 1,
    agents := s.agents ++ [{
      id := freshId s,
      name := ad.name,
      type := ad.type,
      description := ad.description,
      capabilities := ad.capabilities.getD [],
      llmModel := ad.llmModel,
      version := jsOrString ad.version "1.0.0",
      status := AgentStatus.active,
      healthScore := 100,
      successRate := 100,
      totalExecutions := 0,
      failedExecutions := 0 }] }

/-- `getAgent` (part_006 lines 143-149): `undefined` when the db is down,
first row matching the id otherwise. -/
def getAgent (s : State) (agentId : String) : Option Agent :=
  if !s.dbAvailable then none
  else s.agents.find? (fun a => a.id = agentId)

/-- Optional filters of `listAgents`. -/
structure AgentFilters where
  status : Option AgentStatus
  type : Option AgentType
deriving DecidableEq

/-- `listAgents` (part_006 lines 151-163). -/
def listAgents (s : State) (filters : Option AgentFilters) : List Agent :=
  if !s.dbAvailable then []
  else match filters with
    | none => s.agents
    | some f =>
      match f.status with
      | some st => s.agents.filter (fun a => a.status = st)
      | none =>
        match f.type with
        | some ty => s.agents.filter (fun a => a.type = ty)
        | none => s.agents

/-- `updateAgentStatus` (part_006 lines 165-177). -/
def updateAgentStatus (agentId : String) (status : AgentStatus) (s : State) :
    Except String State :=
  if !s.dbAvailable then Except.error "Database not available" else
  Except.ok { s with
    agents := s.agents.map (fun a => if a.id = agentId then { a with status := status } else a) }

/-- `updateAgentMetrics` (part_006 lines 179-205): re-reads the agent, derives
the new cumulative counters, success rate and clamped health score, and
writes them back; throws "Agent not found" when the id does not resolve. -/
def updateAgentMetrics (agentId : String) (successCount failureCount : Option Nat)
    (s : State) : Except String State :=
  if !s.dbAvailable then Except.error "Database not available" else
  match getAgent s agentId with
  | none => Except.error "Agent not found"
  | some agent =>
    let totalExecutions := agent.totalExecutions + jsOrNat successCount 0 + jsOrNat failureCount 0
    let failedExecutions := agent.failedExecutions + jsOrNat failureCount 0
    let successRate : Rat :=
      if totalExecutions > 0 then
        (((totalExecutions : Rat) - (failedExecutions : Rat)) / (totalExecutions : Rat)) * 100
      else 100
    let healthScore : Rat := max 0 (min 100 successRate)
    Except.ok { s with
      agents := s.agents.map (fun a =>
        if a.id = agentId then
          { a with
            totalExecutions := totalExecutions,
            failedExecutions := failedExecutions,
            successRate := successRate,
            healthScore := healthScore }
        else a) }

/-- Input of `createWorkflow` (part_006). -/
structure WorkflowInput where
  name : String
  description : Option String
  orchestrationPattern : Pattern
  nodes : Option (List JsonObject)
  edges : Option (List JsonObject)
  configuration : Option JsonObject
  templateId : Option String
deriving DecidableEq

/-- `createWorkflow` (part_006 lines 211-245): inserts the row verbatim with
status `draft`; no structural validation of nodes or edges is performed. -/
def createWorkflow (wd : WorkflowInput) (s : State) : Except String State :=
  if !s.dbAvailable then Except.error "Database not available" else
  Except.ok { s with
    counter := s.counter + 1,
    workflows := s.workflows ++ [{
      id := freshId s,
      name := wd.name,
      description := wd.description,
      orchestrationPattern := wd.orchestrationPattern,
      nodes := wd.nodes,
      edges := wd.edges,
      configuration := wd.configuration,
      status := WfStatus.draft,
      templateId := wd.templateId }] }

/-- `getWorkflow` (part_006 lines 247-253). -/
def getWorkflow (s : State) (workflowId : String) : Option Workflow :=
  if !s.dbAvailable then none
  else s.workflows.find? (fun w => w.id = workflowId)

/-- `updateWorkflowStatus` (part_006 lines 266-278). -/
def updateWorkflowStatus (workflowId : String) (status : WfStatus) (s : State) :
    Except String State :=
  if !s.dbAvailable then Except.error "Database not available" else
  Except.ok { s with
    workflows := s.workflows.map (fun w =>
      if w.id = workflowId then { w with status := status } else w) }

/-- Input of `createTask` (part_006). -/
structure TaskInput where
  workflowId : String
  input : Option JsonObject
  assignedAgents : Option (List String)
  priority : Option Nat
deriving DecidableEq

/-- `createTask` (part_006 lines 284-313): inserts a task with status
`pending`, consensusMethod "none", retryCount 0, priority defaulted to 5. -/
def createTask (td : TaskInput) (s : State) : Except String State :=
  if !s.dbAvailable then Except.error "Database not available" else
  Except.ok { s with
    counter := s.counter + 1,
    tasks := s.tasks ++ [{
      id := freshId s,
      workflowId := td.workflowId,
      input := td.input,
      assignedAgents := td.assignedAgents,
      priority := jsOrNat td.priority 5,
      status := TaskStatus.pending,
      consensusMethod := "none",
      result := none,
      retryCount := 0,
      startedAt := none,
      completedAt := none }] }

/-- `getTask` (part_006 lines 315-321). -/
def getTask (s : State) (taskId : String) : Option Task :=
  if !s.dbAvailable then none
  else s.tasks.find? (fun t => t.id = taskId)

/-- `updateTaskStatus` (part_006 lines 323-350): unconditionally sets the
requested status on the matching row, stamping `startedAt` on `running` and
`completedAt` on the terminal statuses, and overwrites the result if given.
No previous-status check and no alert emission occur. -/
def updateTaskStatus (taskId : String) (status : TaskStatus)
    (result : Option JsonObject) (s : State) : Except String State :=
  if !s.dbAvailable then Except.error "Database not available" else
  Except.ok { s with
    tasks := s.tasks.map (fun t =>
      if t.id = taskId then
        { t with
          status := status,
          startedAt := if status = TaskStatus.running then some s.counter else t.startedAt,
          completedAt :=
            if status = TaskStatus.completed ∨ status = TaskStatus.failed ∨
               status = TaskStatus.timeout then some s.counter else t.completedAt,
          result := match result with | some r => some r | none => t.result }
      else t) }

/-- Input of `createMessage` (part_006). -/
structure MessageInput where
  senderId : String
  recipientId : Option String
  taskId : Option String
  messageType : MessageType
  content : JsonObject
  metadata : Option JsonObject
deriving DecidableEq

/-- `createMessage` (part_006 lines 356-386): inserts the message with
deliveryStatus `pending`.  No operation of the layer ever updates it. -/
def createMessage (md : MessageInput) (s : State) : Except String State :=
  if !s.dbAvailable then Except.error "Database not available" else
  Except.ok { s with
    counter := s.counter + 1,
    messages := s.messages ++ [{
      id := freshId s,
      senderId := md.senderId,
      recipientId := md.recipientId,
      taskId := md.taskId,
      messageType := md.messageType,
      content := md.content,
      deliveryStatus := DeliveryStatus.pending,
      metadata := md.metadata }] }

/-- `getConversationHistory` (part_006 lines 388-398). -/
def getConversationHistory (s : State) (taskId : String) (limit : Nat) : List Message :=
  if !s.dbAvailable then []
  else (s.messages.filter (fun m => m.taskId = some taskId)).take limit

/-- Input of `createExecutionLog` (part_006). -/
structure LogInput where
  taskId : String
  agentId : String
  eventType : EventType
  level : Option LogLevel
  message : Option String
  metadata : Option JsonObject
deriving DecidableEq

/-- `createExecutionLog` (part_006 lines 404-433). -/
def createExecutionLog (ld : LogInput) (s : State) : Except String State :=
  if !s.dbAvailable then Except.error "Database not available" else
  Except.ok { s with
    counter := s.counter + 1,
    logs := s.logs ++ [{
      id := freshId s,
      taskId := ld.taskId,
      agentId := ld.agentId,
      eventType := ld.eventType,
      level := ld.level.getD LogLevel.info,
      message := ld.message,
      metadata := ld.metadata }] }

/-- `getTaskLogs` (part_006 lines 435-445). -/
def getTaskLogs (s : State) (taskId : String) (limit : Nat) : List ExecLog :=
  if !s.dbAvailable then []
  else (s.logs.filter (fun l => l.taskId = taskId)).take limit

/-- Input of `createAlert` (part_006). -/
structure AlertInput where
  alertType : AlertType
  severity : Option Severity
  title : String
  message : Option String
  relatedAgentId : Option String
  relatedTaskId : Option String
deriving DecidableEq

/-- `createAlert` (part_006 lines 451-481): inserts an alert row with the
given type, severity (defaulting to `info`) and related task/agent ids. -/
def createAlert (ad : AlertInput) (s : State) : Except String State :=
  if !s.dbAvailable then Except.error "Database not available" else
  Except.ok { s with
    counter := s.counter + 1,
    alerts := s.alerts ++ [{
      id := freshId s,
      alertType := ad.alertType,
      severity := ad.severity.getD Severity.info,
      title := ad.title,
      message := ad.message,
      relatedAgentId := ad.relatedAgentId,
      relatedTaskId := ad.relatedTaskId,
      isResolved := false }] }

/-- `getUnresolvedAlerts` (part_006 lines 483-492). -/
def getUnresolvedAlerts (s : State) : List Alert :=
  if !s.dbAvailable then []
  else s.alerts.filter (fun a => a.isResolved = false)

end DB6

namespace DB7

/-- A workflow row of the part_007 `workflows` table, as inserted by its
`createWorkflow` (nodes/edges/configuration are `JSON.stringify`-ed blobs,
modelled as the serialized collections themselves). -/
structure Workflow where
  id : String
  userId : Nat
  name : String
  description : Option String
  orchestrationPattern : String
  nodes : List JsonObject
  edges : List JsonObject
  configuration : JsonObject
  status : WfStatus
  version : Nat
deriving DecidableEq

/-- A task row of the part_007 `tasks` table, as inserted by its `createTask`. -/
structure Task where
  id : String
  userId : Nat
  workflowId : String
  input : JsonObject
  assignedAgents : List String
  priority : Nat
  status : TaskStatus
  result : JsonObject
  startedAt : Option Nat
  completedAt : Option Nat
deriving DecidableEq

/-- A row of the part_007 `consensusResults` table, as inserted by
`saveConsensusResult`. -/
structure ConsensusRow where
  id : String
  userId : Nat
  taskId : String
  consensusType : String
  agentResults : List JsonObject
  finalResult : JsonObject
  confidence : Rat
deriving DecidableEq

/-- The persistent state seen by the part_007 database layer. -/
structure State where
  dbAvailable : Bool
  counter : Nat
  workflows : List Workflow
  tasks : List Task
  consensusResults : List ConsensusRow
deriving DecidableEq

/-- Fresh id drawn from the state's id counter (models `prefix + nanoid()`). -/
def freshId (pre : String) (s : State) : String :=
  pre ++ toString s.counter

/-- Input of `createWorkflow` (part_007). -/
structure WorkflowInput where
  userId : Nat
  name : String
  description : Option String
  orchestrationPattern : String
  nodes : Option (List JsonObject)
  edges : Option (List JsonObject)
  configuration : Option JsonObject
deriving DecidableEq

/-- `createWorkflow` (part_007 lines 199-231): inserts the row with status
`draft` and version 1; nodes and edges are serialized verbatim with no
structural validation. -/
def createWorkflow (wd : WorkflowInput) (s : State) : Except String State :=
  if !s.dbAvailable then Except.error "Database not available" else
  Except.ok { s with
    counter := s.counter + 1,
    workflows := s.workflows ++ [{
      id := freshId "workflow-" s,
      userId := wd.userId,
      name := wd.name,
      description := wd.description,
      orchestrationPattern := wd.orchestrationPattern,
      nodes := wd.nodes.getD [],
      edges := wd.edges.getD [],
      configuration := wd.configuration.getD (JsonObject.mk []),
      status := WfStatus.draft,
      version := 1 }] }

/-- Input of `createTask` (part_007). -/
structure TaskInput where
  userId : Nat
  workflowId : String
  input : Option JsonObject
  assignedAgents : Option (List String)
  priority : Option Nat
deriving DecidableEq

/-- `createTask` (part_007 lines 270-298). -/
def createTask (td : TaskInput) (s : State) : Except String State :=
  if !s.dbAvailable then Except.error "Database not available" else
  Except.ok { s with
    counter := s.counter + 1,
    tasks := s.tasks ++ [{
      id := freshId "task-" s,
      userId := td.userId,
      workflowId := td.workflowId,
      input := td.input.getD (JsonObject.mk []),
      assignedAgents := td.assignedAgents.getD [],
      priority := jsOrNat td.priority 1,
      status := TaskStatus.pending,
      result := JsonObject.mk [],
      startedAt := none,
      completedAt := none }] }

/-- `updateTaskStatus` (part_007 lines 328-348): unconditionally sets the
requested status; `completedAt` is stamped on completed/failed and
`startedAt` on running. -/
def updateTaskStatus (taskId : String) (status : TaskStatus)
    (result : Option JsonObject) (s : State) : Except String State :=
  if !s.dbAvailable then Except.error "Database not available" else
  Except.ok { s with
    tasks := s.tasks.map (fun t =>
      if t.id = taskId then
        { t with
          status := status,
          result := match result with | some r => r | none => t.result,
          completedAt :=
            if status = TaskStatus.completed ∨ status = TaskStatus.failed then
              some s.counter else t.completedAt,
          startedAt := if status = TaskStatus.running then some s.counter else t.startedAt }
      else t) }

/-- Input of `saveConsensusResult` (part_007). -/
structure ConsensusInput where
  userId : Nat
  taskId : String
  consensusType : String
  agentResults : Option (List JsonObject)
  finalResult : Option JsonObject
  confidence : Option Rat
deriving DecidableEq

/-- `saveConsensusResult` (part_007 lines 693-721): inserts the caller's
already-aggregated result verbatim; an absent/empty agent-result list is
stored as `[]`, confidence defaults to 0 (`confidence || 0`), and nothing
else in the state — in particular no task row — is touched. -/
def saveConsensusResult (cd : ConsensusInput) (s : State) : Except String State :=
  if !s.dbAvailable then Except.error "Database not available" else
  Except.ok { s with
    counter := s.counter + 1,
    consensusResults := s.consensusResults ++ [{
      id := freshId "consensus-" s,
      userId := cd.userId,
      taskId := cd.taskId,
      consensusType := cd.consensusType,
      agentResults := cd.agentResults.getD [],
      finalResult := cd.finalResult.getD (JsonObject.mk []),
      confidence := jsOrRat cd.confidence 0 }] }

/-- `getTask` (part_007 lines 315-326). -/
def getTask (s : State) (taskId : String) : Option Task :=
  if !s.dbAvailable then none
  else s.tasks.find? (fun t => t.id = taskId)

end DB7

namespace DB6

/-- One invocation of an operation of the part_006 database layer, with its
arguments.  Queries are included; they read but never write. -/
inductive Op
  | createAgent (ad : AgentInput)
  | getAgent (agentId : String)
  | listAgents (filters : Option AgentFilters)
  | updateAgentStatus (agentId : String) (status : AgentStatus)
  | updateAgentMetrics (agentId : String) (successCount failureCount : Option Nat)
  | createWorkflow (wd : WorkflowInput)
  | getWorkflow (workflowId : String)
  | updateWorkflowStatus (workflowId : String) (status : WfStatus)
  | createTask (td : TaskInput)
  | getTask (taskId : String)
  | updateTaskStatus (taskId : String) (status : TaskStatus) (result : Option JsonObject)
  | createMessage (md : MessageInput)
  | getConversationHistory (taskId : String) (limit : Nat)
  | createExecutionLog (ld : LogInput)
  | getTaskLogs (taskId : String) (limit : Nat)
  | createAlert (ad : AlertInput)
  | getUnresolvedAlerts
deriving DecidableEq

/-- Post-state of an `Except`-returning operation: a thrown error leaves the
state unchanged (each failing function throws before any write). -/
def keepOnError (r : Except String State) (s : State) : State :=
  match r with
  | Except.ok s' => s'
  | Except.error _ => s

/-- The state transition performed by one operation of the part_006 layer. -/
def stepState (op : Op) (s : State) : State :=
  match op with
  | Op.createAgent ad => keepOnError (createAgent ad s) s
  | Op.getAgent _ => s
  | Op.listAgents _ => s
  | Op.updateAgentStatus aid st => keepOnError (updateAgentStatus aid st s) s
  | Op.updateAgentMetrics aid sc fc => keepOnError (updateAgentMetrics aid sc fc s) s
  | Op.createWorkflow wd => keepOnError (createWorkflow wd s) s
  | Op.getWorkflow _ => s
  | Op.updateWorkflowStatus wid st => keepOnError (updateWorkflowStatus wid st s) s
  | Op.createTask td => keepOnError (createTask td s) s
  | Op.getTask _ => s
  | Op.updateTaskStatus tid st r => keepOnError (updateTaskStatus tid st r s) s
  | Op.createMessage md => keepOnError (createMessage md s) s
  | Op.getConversationHistory _ _ => s
  | Op.createExecutionLog ld => keepOnError (createExecutionLog ld s) s
  | Op.getTaskLogs _ _ => s
  | Op.createAlert ad => keepOnError (createAlert ad s) s
  | Op.getUnresolvedAlerts => s

/-- Running a sequence of operations from a starting state. -/
def runOps (ops : List Op) (s : State) : State :=
  ops.foldl (fun s op => stepState op s) s

end DB6

/-- Modelled from the spec: one collected per-agent result
(`agentId`, `value`, `confidence`) of §3's ConsensusResult record.  The
repository declares consensus types (schema enum, router input) but contains
no aggregation algorithm. -/
structure AgentResult where
  agentId : String
  value : String
  confidence : Rat
deriving DecidableEq

/-- Modelled from the spec (§4.5 Voting): a bucket of results sharing one
value, in arrival order. -/
structure Bucket where
  value : String
  members : List AgentResult
deriving DecidableEq

/-- Number of results in a bucket. -/
def Bucket.count (b : Bucket) : Nat := b.members.length

/-- Summed confidence of a bucket. -/
def Bucket.sumConfidence (b : Bucket) : Rat := (b.members.map (fun r => r.confidence)).sum

/-- Add one result to the bucket list, bucketing by value equality; buckets
are kept in order of their earliest-received member. -/
def addToBuckets : List Bucket → AgentResult → List Bucket
  | [], r => [{ value := r.value, members := [r] }]
  | b :: rest, r =>
    if b.value = r.value then { b with members := b.members ++ [r] } :: rest
    else b :: addToBuckets rest r

/-- Modelled from the spec (§4.5 Voting): bucket the results by value
equality, in arrival order. -/
def buckets (rs : List AgentResult) : List Bucket := rs.foldl addToBuckets []

/-- Modelled from the spec (§4.5 Voting): the challenger `c` displaces the
incumbent `b` only with a strictly larger count, or an equal count and a
strictly larger summed confidence; otherwise the earlier bucket (whose first
member was received earlier) is kept. -/
def betterBucket (b c : Bucket) : Bucket :=
  if c.count > b.count then c
  else if c.count = b.count ∧ c.sumConfidence > b.sumConfidence then c
  else b

/-- Modelled from the spec (§4.5 Voting): the winning bucket, `none` on an
empty result set (the aggregator-failure case). -/
def winningBucket (rs : List AgentResult) : Option Bucket :=
  match buckets rs with
  | [] => none
  | b :: rest => some (rest.foldl betterBucket b)

/-- Modelled from the spec (§4.5 Voting, absent from the source): final value
is the winning bucket's value; final confidence is the winning bucket's
summed confidence normalized by the total number of agents. -/
def votingConsensus (rs : List AgentResult) : Option (String × Rat) :=
  match winningBucket rs with
  | none => none
  | some b => some (b.value, b.sumConfidence / (rs.length : Rat))

/-- Modelled from the spec (§4.2 Sequential): the configurable failure policy. -/
inductive SeqPolicy
  | failFast | skipAndContinue
deriving DecidableEq

/-- Modelled from the spec: the outcome an agent node produces when invoked. -/
inductive AgentOutcome
  | success (v : String)
  | failure
deriving DecidableEq

/-- Modelled from the spec: an observable dispatch event — node `n` is
dispatched, or node `n` returns (with success flag). -/
inductive Event
  | dispatch (n : Nat)
  | ret (n : Nat) (ok : Bool)
deriving DecidableEq

/-- Modelled from the spec (§4.2 Sequential, absent from the source): the
event trace of sequentially dispatching the chain starting at node index
`i`, given each node's outcome.  A node is dispatched, returns, and only
then is the next node dispatched; under fail-fast a failure aborts the
remaining chain. -/
def seqTrace (pol : SeqPolicy) : Nat → List AgentOutcome → List Event
  | _, [] => []
  | i, AgentOutcome.success _ :: rest =>
    Event.dispatch i :: Event.ret i true :: seqTrace pol (i + 1) rest
  | i, AgentOutcome.failure :: rest =>
    match pol with
    | SeqPolicy.failFast => [Event.dispatch i, Event.ret i false]
    | SeqPolicy.skipAndContinue =>
      Event.dispatch i :: Event.ret i false :: seqTrace pol (i + 1) rest

/-- Follows the spec's words (§3: "Edge endpoints must exist in the owning
workflow's node set"), used to state which concrete workflow submissions the
validation claims are about: the node ids named by a node list. -/
def nodeIds (nodes : List JsonObject) : List String :=
  nodes.filterMap (fun o => o.entries.lookup "id")

/-- Follows the spec's words (§3/§4.1): every edge's source and target name
an existing node id. -/
def edgeRefsOk (nodes edges : List JsonObject) : Bool :=
  edges.all (fun e =>
    match e.entries.lookup "source", e.entries.lookup "target" with
    | some src, some tgt => (nodeIds nodes).contains src && (nodeIds nodes).contains tgt
    | _, _ => false)

/-- Delivery status of the message with the given id, if any. -/
def msgDeliveryStatus (s : DB6.State) (mid : String) : Option DeliveryStatus :=
  (s.messages.find? (fun m => m.id = mid)).map (fun m => m.deliveryStatus)

/-- An empty part_006 state with the database reachable. -/
def initState : DB6.State :=
  { dbAvailable := true, counter := 0, agents := [], workflows := [],
    tasks := [], messages := [], logs := [], alerts := [] }

/-- An empty part_006 state with the database unreachable (`getDb` = null). -/
def deadState : DB6.State :=
  { dbAvailable := false, counter := 0, agents := [], workflows := [],
    tasks := [], messages := [], logs := [], alerts := [] }

/-- An empty part_007 state with the database reachable. -/
def initState7 : DB7.State :=
  { dbAvailable := true, counter := 0, workflows := [], tasks := [], consensusResults := [] }

section Helpers

/-- `find?` ignores an appended suffix when the former part already yields a hit. -/
theorem find?_append_left {α : Type} (p : α → Bool) (l₂ : List α) :
    ∀ l₁ : List α, (l₁.find? p).isSome → (l₁ ++ l₂).find? p = l₁.find? p := by
  intro l₁
  induction l₁ with
  | nil => intro h; simp [List.find?] at h
  | cons x xs ih =>
    intro h
    by_cases hp : p x
    · simp [List.find?, hp]
    · simp only [List.find?, Bool.not_eq_true] at *
      simp only [hp] at h ⊢
      exact ih h

/-- `find?` over a list rewritten only at entries satisfying `p`, by a function
that does not change whether `p` holds, yields the rewritten hit. -/
theorem find?_map_ite {α : Type} (p : α → Bool) (g : α → α)
    (hg : ∀ x, p (g x) = p x) :
    ∀ l : List α, (l.map (fun x => if p x then g x else x)).find? p = (l.find? p).map g := by
  intro l
  induction l with
  | nil => simp
  | cons x xs ih =>
    by_cases hp : p x
    · simp [List.find?, hp, hg]
    · simp only [List.map, List.find?, hp, if_neg, Bool.not_eq_true] at *
      simp [hp, ih]

end Helpers

/-- Claim C8: every workflow row added by a successful `createWorkflow` call —
in either generation of the database layer — has status `draft`, regardless
of the input's pattern, nodes, edges or configuration. -/
theorem createWorkflow_status_draft :
    (∀ (wd : DB6.WorkflowInput) (s s' : DB6.State),
      DB6.createWorkflow wd s = Except.ok s' →
      ∀ w, w ∈ s'.workflows → w ∈ s.workflows ∨ w.status = WfStatus.draft) ∧
    (∀ (wd : DB7.WorkflowInput) (s s' : DB7.State),
      DB7.createWorkflow wd s = Except.ok s' →
      ∀ w, w ∈ s'.workflows → w ∈ s.workflows ∨ w.status = WfStatus.draft) := by
  constructor
  · intro wd s s' hok w hw
    unfold DB6.createWorkflow at hok
    by_cases hdb : s.dbAvailable
    · simp [hdb] at hok
      subst hok
      simp at hw
      rcases hw with hw | hw
      · exact Or.inl hw
      · subst hw; exact Or.inr rfl
    · simp [hdb] at hok
  · intro wd s s' hok w hw
    unfold DB7.createWorkflow at hok
    by_cases hdb : s.dbAvailable
    · simp [hdb] at hok
      subst hok
      simp at hw
      rcases hw with hw | hw
      · exact Or.inl hw
      · subst hw; exact Or.inr rfl
    · simp [hdb] at hok

/-- A concrete workflow-creation input (part_006 layer). -/
def c8input : DB6.WorkflowInput :=
  { name := "wf", description := none, orchestrationPattern := Pattern.concurrent,
    nodes := some [JsonObject.mk [("id", "node1")]], edges := some [],
    configuration := none, templateId := none }

/-- The state after creating `c8input` from the empty reachable state. -/
def c8state : DB6.State := DB6.stepState (DB6.Op.createWorkflow c8input) initState

/-- The workflow row that creation appends. -/
def c8row : DB6.Workflow :=
  { id := "id-0", name := "wf", description := none,
    orchestrationPattern := Pattern.concurrent,
    nodes := some [JsonObject.mk [("id", "node1")]], edges := some [],
    configuration := none, status := WfStatus.draft, templateId := none }

/-- Witness for C8 at a concrete input. -/
theorem createWorkflow_status_draft_witness :
    c8row ∈ initState.workflows ∨ c8row.status = WfStatus.draft :=
  createWorkflow_status_draft.1 c8input initState c8state rfl c8row (by decide)

/-- A workflow submission whose single edge targets `nodeX`, an id absent from
its node set — structurally invalid per the spec's edge-endpoint invariant. -/
def c3input : DB6.WorkflowInput :=
  { name := "bad-wf", description := none, orchestrationPattern := Pattern.sequential,
    nodes := some [JsonObject.mk [("id", "node1")]],
    edges := some [JsonObject.mk [("source", "node1"), ("target", "nodeX")]],
    configuration := none, templateId := none }

/-- Counterexample for C3: a submission with a dangling edge is not rejected —
`createWorkflow` succeeds and a workflow record is created for it. -/
theorem createWorkflow_accepts_dangling_edge :
    edgeRefsOk (c3input.nodes.getD []) (c3input.edges.getD []) = false ∧
    (DB6.createWorkflow c3input initState).toOption.map
      (fun s => s.workflows.length) = some 1 := by
  constructor
  · rfl
  · rfl

/-- Claim C3 as amended: `createWorkflow` performs no structural validation at
all — for every input (dangling edges, duplicate ids, pattern violations
included) it succeeds whenever the database is available, creating exactly one
new workflow record carrying the submitted nodes and edges verbatim, in
status `draft`; no ValidationError exists in the layer. -/
theorem createWorkflow_no_validation (wd : DB6.WorkflowInput) (s : DB6.State)
    (hdb : s.dbAvailable = true) :
    ∃ s', DB6.createWorkflow wd s = Except.ok s' ∧
      s'.workflows.length = s.workflows.length + 1 ∧
      ∃ w, w ∈ s'.workflows ∧ w.nodes = wd.nodes ∧ w.edges = wd.edges ∧
        w.status = WfStatus.draft := by
  unfold DB6.createWorkflow
  rw [hdb]
  exact ⟨_, rfl, by simp,
    { id := DB6.freshId s, name := wd.name, description := wd.description,
      orchestrationPattern := wd.orchestrationPattern, nodes := wd.nodes,
      edges := wd.edges, configuration := wd.configuration,
      status := WfStatus.draft, templateId := wd.templateId },
    by simp, rfl, rfl, rfl⟩

/-- Witness for C3's amended theorem at the concrete invalid input. -/
theorem createWorkflow_no_validation_witness :
    ∃ s', DB6.createWorkflow c3input initState = Except.ok s' ∧
      s'.workflows.length = initState.workflows.length + 1 ∧
      ∃ w, w ∈ s'.workflows ∧ w.nodes = c3input.nodes ∧ w.edges = c3input.edges ∧
        w.status = WfStatus.draft :=
  createWorkflow_no_validation c3input initState rfl

/-- Claim C10: with the database handle unavailable, every read returns
`undefined` (`none`), every list returns `[]`, and every write throws
"Database not available" (the `Except.error` carries no new state, so no
state is changed). -/
theorem db_unavailable_reads_writes (s : DB6.State) (hdb : s.dbAvailable = false) :
    (∀ aid, DB6.getAgent s aid = none) ∧
    (∀ wid, DB6.getWorkflow s wid = none) ∧
    (∀ tid, DB6.getTask s tid = none) ∧
    (∀ f, DB6.listAgents s f = []) ∧
    (∀ tid lim, DB6.getTaskLogs s tid lim = []) ∧
    (∀ tid lim, DB6.getConversationHistory s tid lim = []) ∧
    (∀ ad, DB6.createAgent ad s = Except.error "Database not available") ∧
    (∀ wd, DB6.createWorkflow wd s = Except.error "Database not available") ∧
    (∀ td, DB6.createTask td s = Except.error "Database not available") ∧
    (∀ md, DB6.createMessage md s = Except.error "Database not available") ∧
    (∀ tid st r, DB6.updateTaskStatus tid st r s = Except.error "Database not available") := by
  refine ⟨fun _ => ?_, fun _ => ?_, fun _ => ?_, fun _ => ?_, fun _ _ => ?_,
    fun _ _ => ?_, fun _ => ?_, fun _ => ?_, fun _ => ?_, fun _ => ?_, fun _ _ _ => ?_⟩ <;>
    simp [DB6.getAgent, DB6.getWorkflow, DB6.getTask, DB6.listAgents,
      DB6.getTaskLogs, DB6.getConversationHistory, DB6.createAgent,
      DB6.createWorkflow, DB6.createTask, DB6.createMessage,
      DB6.updateTaskStatus, hdb]

/-- A concrete task-creation input used in witnesses. -/
def tdInput : DB6.TaskInput :=
  { workflowId := "wf-1", input := none, assignedAgents := some ["agent-1"], priority := some 1 }

/-- Witness for C10 at a concrete unavailable-database state. -/
theorem db_unavailable_reads_writes_witness :
    DB6.getTask deadState "task-1" = none ∧
    DB6.listAgents deadState none = [] ∧
    DB6.createTask tdInput deadState = Except.error "Database not available" :=
  ⟨(db_unavailable_reads_writes deadState rfl).2.2.1 "task-1",
   (db_unavailable_reads_writes deadState rfl).2.2.2.1 none,
   (db_unavailable_reads_writes deadState rfl).2.2.2.2.2.2.2.2.1 tdInput⟩

/-- A part_007 state holding one running task `task-1`. -/
def c4state : DB7.State :=
  { dbAvailable := true, counter := 5, workflows := [],
    tasks := [{ id := "task-1", userId := 1, workflowId := "wf-1",
                input := JsonObject.mk [], assignedAgents := [], priority := 1,
                status := TaskStatus.running, result := JsonObject.mk [],
                startedAt := some 3, completedAt := none }],
    consensusResults := [] }

/-- A `saveConsensusResult` call for `task-1` carrying an empty per-agent
result set. -/
def c4input : DB7.ConsensusInput :=
  { userId := 1, taskId := "task-1", consensusType := "voting",
    agentResults := some [], finalResult := none, confidence := none }

/-- Counterexample for C4: invoked with an empty per-agent result set, the
consensus-save operation succeeds (it raises no ConsensusError) and the
associated task stays `running` rather than becoming `failed`. -/
theorem saveConsensusResult_empty_succeeds :
    (DB7.saveConsensusResult c4input c4state).toOption.map
      (fun s => ((DB7.getTask s "task-1").map (fun t => t.status),
                 s.consensusResults.length)) =
      some (some TaskStatus.running, 1) := by
  rfl

/-- Claim C4 as amended: `saveConsensusResult` accepts an empty (or absent)
per-agent result set whenever the database is available: it succeeds, stores
the row with an empty agent-result list (confidence defaulting to 0 when
absent), raises no error, and leaves every task — in particular the
associated one — untouched. -/
theorem saveConsensusResult_empty_ok (cd : DB7.ConsensusInput) (s : DB7.State)
    (hdb : s.dbAvailable = true) (hempty : cd.agentResults.getD [] = []) :
    ∃ s', DB7.saveConsensusResult cd s = Except.ok s' ∧
      s'.tasks = s.tasks ∧
      ∃ row, row ∈ s'.consensusResults ∧ row.agentResults = [] ∧
        row.taskId = cd.taskId ∧ row.confidence = jsOrRat cd.confidence 0 := by
  unfold DB7.saveConsensusResult
  rw [hdb]
  exact ⟨_, rfl, rfl,
    { id := DB7.freshId "consensus-" s, userId := cd.userId, taskId := cd.taskId,
      consensusType := cd.consensusType, agentResults := cd.agentResults.getD [],
      finalResult := cd.finalResult.getD (JsonObject.mk []),
      confidence := jsOrRat cd.confidence 0 },
    by simp, hempty, rfl, rfl⟩

/-- Witness for C4's amended theorem at the concrete empty-result input. -/
theorem saveConsensusResult_empty_ok_witness :
    ∃ s', DB7.saveConsensusResult c4input c4state = Except.ok s' ∧
      s'.tasks = c4state.tasks ∧
      ∃ row, row ∈ s'.consensusResults ∧ row.agentResults = [] ∧
        row.taskId = c4input.taskId ∧ row.confidence = jsOrRat c4input.confidence 0 :=
  saveConsensusResult_empty_ok c4input c4state rfl rfl

/-- A part_006 state holding one running task `t1` and no alerts. -/
def c7state : DB6.State :=
  { dbAvailable := true, counter := 2, agents := [], workflows := [],
    tasks := [{ id := "t1", workflowId := "wf-1", input := none,
                assignedAgents := none, priority := 5,
                status := TaskStatus.running, consensusMethod := "none",
                result := none, retryCount := 0, startedAt := some 1,
                completedAt := none }],
    messages := [], logs := [], alerts := [] }

/-- Counterexample for C7: moving task `t1` into the terminal status
`completed` emits no alert record — the alert list stays empty. -/
theorem terminal_transition_emits_no_alert :
    (DB6.updateTaskStatus "t1" TaskStatus.completed none c7state).toOption.map
      (fun s => ((DB6.getTask s "t1").map (fun t => t.status), s.alerts)) =
      some (some TaskStatus.completed, []) := by
  rfl

/-- Claim C7 as amended: no task status update — terminal or not — creates an
alert record; alert records carrying type, severity and the related task or
agent id are only created by the separate `createAlert` operation, which a
caller must invoke explicitly. -/
theorem updateTaskStatus_no_alert :
    (∀ (tid : String) (st : TaskStatus) (r : Option JsonObject) (s s' : DB6.State),
      DB6.updateTaskStatus tid st r s = Except.ok s' → s'.alerts = s.alerts) ∧
    (∀ (ad : DB6.AlertInput) (s s' : DB6.State),
      DB6.createAlert ad s = Except.ok s' →
      ∃ a, s'.alerts = s.alerts ++ [a] ∧ a.alertType = ad.alertType ∧
        a.severity = ad.severity.getD Severity.info ∧
        a.relatedAgentId = ad.relatedAgentId ∧ a.relatedTaskId = ad.relatedTaskId) := by
  constructor
  · intro tid st r s s' hok
    unfold DB6.updateTaskStatus at hok
    by_cases hdb : s.dbAvailable
    · simp [hdb] at hok
      subst hok
      rfl
    · simp [hdb] at hok
  · intro ad s s' hok
    unfold DB6.createAlert at hok
    by_cases hdb : s.dbAvailable
    · simp [hdb] at hok
      subst hok
      exact ⟨_, rfl, rfl, rfl, rfl, rfl⟩
    · simp [hdb] at hok

/-- Concrete alert input used in the C7 witness. -/
def c7alert : DB6.AlertInput :=
  { alertType := AlertType.task_completion, severity := some Severity.info,
    title := "Task completed", message := none,
    relatedAgentId := none, relatedTaskId := some "t1" }

/-- Witness for C7's amended theorem at concrete inputs. -/
theorem updateTaskStatus_no_alert_witness :
    (DB6.stepState (DB6.Op.updateTaskStatus "t1" TaskStatus.completed none) c7state).alerts
      = c7state.alerts ∧
    (∃ a, (DB6.stepState (DB6.Op.createAlert c7alert) c7state).alerts = c7state.alerts ++ [a] ∧
      a.alertType = c7alert.alertType ∧ a.severity = c7alert.severity.getD Severity.info ∧
      a.relatedAgentId = c7alert.relatedAgentId ∧ a.relatedTaskId = c7alert.relatedTaskId) :=
  ⟨updateTaskStatus_no_alert.1 "t1" TaskStatus.completed none c7state _ rfl,
   updateTaskStatus_no_alert.2 c7alert c7state _ rfl⟩

/-- A part_006 state holding one task `t1` already in the terminal status
`completed`. -/
def c2state : DB6.State :=
  { dbAvailable := true, counter := 3, agents := [], workflows := [],
    tasks := [{ id := "t1", workflowId := "wf-1", input := none,
                assignedAgents := none, priority := 5,
                status := TaskStatus.completed, consensusMethod := "none",
                result := none, retryCount := 0, startedAt := some 1,
                completedAt := some 2 }],
    messages := [], logs := [], alerts := [] }

/-- Counterexample for C2: `updateTaskStatus` happily moves a task from the
terminal status `completed` back to `pending` — status transitions are not
monotonic. -/
theorem task_status_not_monotonic :
    (DB6.getTask c2state "t1").map (fun t => t.status) = some TaskStatus.completed ∧
    (DB6.updateTaskStatus "t1" TaskStatus.pending none c2state).toOption.map
      (fun s => (DB6.getTask s "t1").map (fun t => t.status)) =
      some (some TaskStatus.pending) := by
  exact ⟨rfl, rfl⟩

/-- Every single operation of the part_006 layer preserves "all tasks have
retryCount 0": no operation ever increments a retry counter. -/
theorem stepState_retryCount (op : DB6.Op) (s : DB6.State)
    (h : ∀ t ∈ s.tasks, t.retryCount = 0) :
    ∀ t ∈ (DB6.stepState op s).tasks, t.retryCount = 0 := by
  intro t ht
  cases op with
  | createAgent ad =>
    unfold DB6.stepState DB6.keepOnError DB6.createAgent at ht
    by_cases hdb : s.dbAvailable <;> simp [hdb] at ht <;> exact h t ht
  | getAgent aid => exact h t ht
  | listAgents f => exact h t ht
  | updateAgentStatus aid st =>
    unfold DB6.stepState DB6.keepOnError DB6.updateAgentStatus at ht
    by_cases hdb : s.dbAvailable <;> simp [hdb] at ht <;> exact h t ht
  | updateAgentMetrics aid sc fc =>
    unfold DB6.stepState DB6.keepOnError DB6.updateAgentMetrics at ht
    by_cases hdb : s.dbAvailable
    · simp only [hdb, Bool.not_true, Bool.false_eq_true, if_false] at ht
      cases hga : DB6.getAgent s aid <;> simp [hga] at ht <;> exact h t ht
    · simp [hdb] at ht; exact h t ht
  | createWorkflow wd =>
    unfold DB6.stepState DB6.keepOnError DB6.createWorkflow at ht
    by_cases hdb : s.dbAvailable <;> simp [hdb] at ht <;> exact h t ht
  | getWorkflow wid => exact h t ht
  | updateWorkflowStatus wid st =>
    unfold DB6.stepState DB6.keepOnError DB6.updateWorkflowStatus at ht
    by_cases hdb : s.dbAvailable <;> simp [hdb] at ht <;> exact h t ht
  | createTask td =>
    unfold DB6.stepState DB6.keepOnError DB6.createTask at ht
    by_cases hdb : s.dbAvailable
    · simp [hdb] at ht
      rcases ht with ht | ht
      · exact h t ht
      · subst ht; rfl
    · simp [hdb] at ht; exact h t ht
  | getTask tid => exact h t ht
  | updateTaskStatus tid st r =>
    unfold DB6.stepState DB6.keepOnError DB6.updateTaskStatus at ht
    by_cases hdb : s.dbAvailable
    · simp only [hdb, Bool.not_true, Bool.false_eq_true, if_false, List.mem_map] at ht
      rcases ht with ⟨t0, ht0, rfl⟩
      by_cases hid : t0.id = tid <;> simp [hid] <;> exact h t0 ht0
    · simp [hdb] at ht; exact h t ht
  | createMessage md =>
    unfold DB6.stepState DB6.keepOnError DB6.createMessage at ht
    by_cases hdb : s.dbAvailable <;> simp [hdb] at ht <;> exact h t ht
  | getConversationHistory tid lim => exact h t ht
  | createExecutionLog ld =>
    unfold DB6.stepState DB6.keepOnError DB6.createExecutionLog at ht
    by_cases hdb : s.dbAvailable <;> simp [hdb] at ht <;> exact h t ht
  | getTaskLogs tid lim => exact h t ht
  | createAlert ad =>
    unfold DB6.stepState DB6.keepOnError DB6.createAlert at ht
    by_cases hdb : s.dbAvailable <;> simp [hdb] at ht <;> exact h t ht
  | getUnresolvedAlerts => exact h t ht

/-- Claim C2 as amended: the layer never enforces the state machine —
`updateTaskStatus` overwrites a task's status with any requested value (so
monotonicity can be violated by callers, as the counterexample shows) —
while `retryCount` is created at 0 by `createTask` and modified by no
operation whatsoever, so it trivially never exceeds any configured maximum. -/
theorem task_retryCount_and_status_overwrite :
    (∀ (ops : List DB6.Op) (s : DB6.State), (∀ t ∈ s.tasks, t.retryCount = 0) →
      ∀ t ∈ (DB6.runOps ops s).tasks, t.retryCount = 0) ∧
    (∀ (s : DB6.State) (tid : String) (st : TaskStatus) (r : Option JsonObject),
      s.dbAvailable = true →
      ∃ s', DB6.updateTaskStatus tid st r s = Except.ok s' ∧
        ∀ t ∈ s.tasks, t.id = tid →
          ∃ t', t' ∈ s'.tasks ∧ t'.id = tid ∧ t'.status = st ∧
            t'.retryCount = t.retryCount) := by
  constructor
  · intro ops
    induction ops with
    | nil => intro s h; simpa [DB6.runOps] using h
    | cons op rest ih =>
      intro s h
      have : DB6.runOps (op :: rest) s = DB6.runOps rest (DB6.stepState op s) := rfl
      rw [this]
      exact ih _ (stepState_retryCount op s h)
  · intro s tid st r hdb
    unfold DB6.updateTaskStatus
    rw [hdb]
    refine ⟨_, rfl, ?_⟩
    intro t ht hid
    refine ⟨_, List.mem_map_of_mem _ ht, ?_⟩
    simp [hid]

/-- The task that `createTask tdInput` appends to `initState`. -/
def c2createdTask : DB6.Task :=
  { id := "id-0", workflowId := "wf-1", input := none,
    assignedAgents := some ["agent-1"], priority := 1,
    status := TaskStatus.pending, consensusMethod := "none", result := none,
    retryCount := 0, startedAt := none, completedAt := none }

/-- Witness for C2's amended theorem at concrete inputs. -/
theorem task_retryCount_and_status_overwrite_witness :
    c2createdTask.retryCount = 0 ∧
    (∃ s', DB6.updateTaskStatus "t1" TaskStatus.pending none c2state = Except.ok s' ∧
      ∀ t ∈ c2state.tasks, t.id = "t1" →
        ∃ t', t' ∈ s'.tasks ∧ t'.id = "t1" ∧ t'.status = TaskStatus.pending ∧
          t'.retryCount = t.retryCount) :=
  ⟨task_retryCount_and_status_overwrite.1 [DB6.Op.createTask tdInput] initState
      (by intro t ht; simp [initState] at ht) c2createdTask (by decide),
   task_retryCount_and_status_overwrite.2 c2state "t1" TaskStatus.pending none rfl⟩

/-- A step of the part_006 layer either leaves the message table untouched or
appends exactly one new message, which starts in delivery status `pending`. -/
theorem stepState_messages_shape (op : DB6.Op) (s : DB6.State) :
    (DB6.stepState op s).messages = s.messages ∨
    ∃ m, (DB6.stepState op s).messages = s.messages ++ [m] ∧
      m.deliveryStatus = DeliveryStatus.pending := by
  cases op with
  | createAgent ad =>
    unfold DB6.stepState DB6.keepOnError DB6.createAgent
    by_cases hdb : s.dbAvailable <;> simp [hdb]
  | getAgent aid => exact Or.inl rfl
  | listAgents f => exact Or.inl rfl
  | updateAgentStatus aid st =>
    unfold DB6.stepState DB6.keepOnError DB6.updateAgentStatus
    by_cases hdb : s.dbAvailable <;> simp [hdb]
  | updateAgentMetrics aid sc fc =>
    unfold DB6.stepState DB6.keepOnError DB6.updateAgentMetrics
    by_cases hdb : s.dbAvailable
    · simp only [hdb, Bool.not_true, Bool.false_eq_true, if_false]
      cases hga : DB6.getAgent s aid <;> simp [hga]
    · simp [hdb]
  | createWorkflow wd =>
    unfold DB6.stepState DB6.keepOnError DB6.createWorkflow
    by_cases hdb : s.dbAvailable <;> simp [hdb]
  | getWorkflow wid => exact Or.inl rfl
  | updateWorkflowStatus wid st =>
    unfold DB6.stepState DB6.keepOnError DB6.updateWorkflowStatus
    by_cases hdb : s.dbAvailable <;> simp [hdb]
  | createTask td =>
    unfold DB6.stepState DB6.keepOnError DB6.createTask
    by_cases hdb : s.dbAvailable <;> simp [hdb]
  | getTask tid => exact Or.inl rfl
  | updateTaskStatus tid st r =>
    unfold DB6.stepState DB6.keepOnError DB6.updateTaskStatus
    by_cases hdb : s.dbAvailable <;> simp [hdb]
  | createMessage md =>
    unfold DB6.stepState DB6.keepOnError DB6.createMessage
    by_cases hdb : s.dbAvailable
    · simp only [hdb, Bool.not_true, Bool.false_eq_true, if_false]
      exact Or.inr ⟨_, rfl, rfl⟩
    · simp [hdb]
  | getConversationHistory tid lim => exact Or.inl rfl
  | createExecutionLog ld =>
    unfold DB6.stepState DB6.keepOnError DB6.createExecutionLog
    by_cases hdb : s.dbAvailable <;> simp [hdb]
  | getTaskLogs tid lim => exact Or.inl rfl
  | createAlert ad =>
    unfold DB6.stepState DB6.keepOnError DB6.createAlert
    by_cases hdb : s.dbAvailable <;> simp [hdb]
  | getUnresolvedAlerts => exact Or.inl rfl

/-- No step of the part_006 layer changes the delivery status of an already
stored message. -/
theorem stepState_msgDeliveryStatus (op : DB6.Op) (s : DB6.State) (mid : String)
    (h : (s.messages.find? (fun m => m.id = mid)).isSome) :
    msgDeliveryStatus (DB6.stepState op s) mid = msgDeliveryStatus s mid := by
  rcases stepState_messages_shape op s with hm | ⟨m, hm, _⟩
  · unfold msgDeliveryStatus
    rw [hm]
  · unfold msgDeliveryStatus
    rw [hm, find?_append_left _ _ _ h]

/-- A concrete message-send input. -/
def c5md : DB6.MessageInput :=
  { senderId := "agent-1", recipientId := some "agent-2", taskId := some "task-1",
    messageType := MessageType.request, content := JsonObject.mk [("action", "analyze")],
    metadata := none }

/-- The state right after sending `c5md` from the empty reachable state; the
created message has id `id-0`. -/
def c5s1 : DB6.State := DB6.stepState (DB6.Op.createMessage c5md) initState

/-- Counterexample for C5: the sent message starts (and is stuck) at delivery
status `pending` — no operation of the layer moves it to `delivered`,
`acknowledged` or `failed`, so the claimed progression is performed by no
operation of the engine. -/
theorem message_stuck_pending :
    msgDeliveryStatus c5s1 "id-0" = some DeliveryStatus.pending ∧
    ¬ ∃ op : DB6.Op,
        msgDeliveryStatus (DB6.stepState op c5s1) "id-0" ≠ some DeliveryStatus.pending := by
  refine ⟨rfl, ?_⟩
  rintro ⟨op, hop⟩
  exact hop ((stepState_msgDeliveryStatus op c5s1 "id-0" rfl).trans rfl)

/-- Claim C5 as amended: every message is created with delivery status
`pending`, and no operation of the engine ever changes a stored message's
delivery status — there is no progression to `delivered`, `acknowledged` or
`failed` and no retry bookkeeping. -/
theorem message_delivery_status_never_progresses :
    (∀ (md : DB6.MessageInput) (s s' : DB6.State),
      DB6.createMessage md s = Except.ok s' →
      ∀ m, m ∈ s'.messages → m ∈ s.messages ∨ m.deliveryStatus = DeliveryStatus.pending) ∧
    (∀ (op : DB6.Op) (s : DB6.State) (mid : String),
      (s.messages.find? (fun m => m.id = mid)).isSome →
      msgDeliveryStatus (DB6.stepState op s) mid = msgDeliveryStatus s mid) := by
  constructor
  · intro md s s' hok m hm
    unfold DB6.createMessage at hok
    by_cases hdb : s.dbAvailable
    · simp [hdb] at hok
      subst hok
      simp at hm
      rcases hm with hm | hm
      · exact Or.inl hm
      · subst hm; exact Or.inr rfl
    · simp [hdb] at hok
  · exact stepState_msgDeliveryStatus

/-- The message row that sending `c5md` appends. -/
def c5msg : DB6.Message :=
  { id := "id-0", senderId := "agent-1", recipientId := some "agent-2",
    taskId := some "task-1", messageType := MessageType.request,
    content := JsonObject.mk [("action", "analyze")],
    deliveryStatus := DeliveryStatus.pending, metadata := none }

/-- Witness for C5's amended theorem at concrete inputs. -/
theorem message_delivery_status_never_progresses_witness :
    ((c5msg ∈ initState.messages ∨ c5msg.deliveryStatus = DeliveryStatus.pending) ∧
     msgDeliveryStatus (DB6.stepState DB6.Op.getUnresolvedAlerts c5s1) "id-0" =
       msgDeliveryStatus c5s1 "id-0") :=
  ⟨message_delivery_status_never_progresses.1 c5md initState c5s1 rfl c5msg (by decide),
   message_delivery_status_never_progresses.2 DB6.Op.getUnresolvedAlerts c5s1 "id-0" rfl⟩

/-- `find?` by key over a list rewritten only at the matching key, by a
key-preserving function, yields the rewritten hit. -/
theorem find?_map_if_id {α : Type} (key : α → String) (aid : String) (g : α → α)
    (hg : ∀ x, key (g x) = key x) :
    ∀ l : List α,
      (l.map (fun x => if key x = aid then g x else x)).find? (fun x => key x = aid) =
      (l.find? (fun x => key x = aid)).map g := by
  intro l
  induction l with
  | nil => simp
  | cons x xs ih =>
    by_cases hx : key x = aid
    · simp [List.find?, hx, hg]
    · simp [List.find?, hx, hg, ih]

/-- `jsOrNat` with default 0 is plain `Option.getD 0`. -/
theorem jsOrNat_getD (o : Option Nat) : jsOrNat o 0 = o.getD 0 := by
  cases o with
  | none => rfl
  | some v => by_cases hv : v = 0 <;> simp [jsOrNat, hv]

/-- If `find?` by key hits `a`, then after rewriting the matching entries by a
key-preserving `g` it hits `g a`. -/
theorem find?_of_map_found {α : Type} (key : α → String) (aid : String) (g : α → α)
    (hg : ∀ x, key (g x) = key x) (l : List α) (a : α)
    (h : l.find? (fun x => key x = aid) = some a) :
    (l.map (fun x => if key x = aid then g x else x)).find? (fun x => key x = aid) =
      some (g a) := by
  rw [find?_map_if_id key aid g hg l, h]
  rfl

/-- Claim C9: `updateAgentMetrics` on an existing agent adds the success and
failure counts (each defaulting to 0 when absent) to `totalExecutions`, adds
the failure count to `failedExecutions`, recomputes `successRate` as
`((total − failed)/total) × 100` (100 when the total is 0) and sets
`healthScore` to the success rate clamped to [0, 100]; on an unknown agent id
it throws "Agent not found", changing nothing (the error carries no state). -/
theorem updateAgentMetrics_spec (s : DB6.State) (aid : String) (sc fc : Option Nat)
    (hdb : s.dbAvailable = true) :
    (∀ a, DB6.getAgent s aid = some a →
      ∃ s', DB6.updateAgentMetrics aid sc fc s = Except.ok s' ∧
        ∃ a', DB6.getAgent s' aid = some a' ∧
          a'.totalExecutions = a.totalExecutions + sc.getD 0 + fc.getD 0 ∧
          a'.failedExecutions = a.failedExecutions + fc.getD 0 ∧
          a'.successRate = (if a'.totalExecutions > 0 then
              (((a'.totalExecutions : Rat) - (a'.failedExecutions : Rat)) /
                (a'.totalExecutions : Rat)) * 100
            else 100) ∧
          a'.healthScore = max 0 (min 100 a'.successRate)) ∧
    (DB6.getAgent s aid = none →
      DB6.updateAgentMetrics aid sc fc s = Except.error "Agent not found") := by
  constructor
  · intro a hga
    have hfind : s.agents.find? (fun x => x.id = aid) = some a := by
      unfold DB6.getAgent at hga
      simpa [hdb] using hga
    unfold DB6.updateAgentMetrics
    rw [hdb, hga]
    simp only [Bool.not_true, Bool.false_eq_true, if_false]
    refine ⟨_, rfl, ?_⟩
    unfold DB6.getAgent
    simp only [hdb, Bool.not_true, Bool.false_eq_true, if_false]
    refine ⟨_, find?_of_map_found (fun x => x.id) aid _ ?_ s.agents a hfind,
      ?_, ?_, ?_, ?_⟩
    · intro x; rfl
    all_goals simp [jsOrNat_getD]
  · intro hga
    unfold DB6.updateAgentMetrics
    rw [hdb, hga]
    simp

/-- A concrete agent with execution history, for the C9 witness. -/
def c9agent : DB6.Agent :=
  { id := "a1", name := "Analyst", type := AgentType.reasoning, description := none,
    capabilities := ["analysis"], llmModel := some "gpt-4", version := "1.0.0",
    status := AgentStatus.active, healthScore := 80, successRate := 80,
    totalExecutions := 10, failedExecutions := 2 }

/-- A part_006 state holding `c9agent`. -/
def c9state : DB6.State :=
  { dbAvailable := true, counter := 7, agents := [c9agent], workflows := [],
    tasks := [], messages := [], logs := [], alerts := [] }

/-- Witness for C9 at a concrete agent with successCount 3 and failureCount 1. -/
theorem updateAgentMetrics_spec_witness :
    ∃ s', DB6.updateAgentMetrics "a1" (some 3) (some 1) c9state = Except.ok s' ∧
      ∃ a', DB6.getAgent s' "a1" = some a' ∧
        a'.totalExecutions = c9agent.totalExecutions + (some 3).getD 0 + (some 1).getD 0 ∧
        a'.failedExecutions = c9agent.failedExecutions + (some 1).getD 0 ∧
        a'.successRate = (if a'.totalExecutions > 0 then
            (((a'.totalExecutions : Rat) - (a'.failedExecutions : Rat)) /
              (a'.totalExecutions : Rat)) * 100
          else 100) ∧
        a'.healthScore = max 0 (min 100 a'.successRate) :=
  (updateAgentMetrics_spec c9state "a1" (some 3) (some 1) rfl).1 c9agent rfl

/-- The C1 scenario's collected per-agent results: values "A", "A", "B" with
confidences 0.9, 0.6, 0.95, in arrival order. -/
def c1results : List AgentResult :=
  [{ agentId := "a1", value := "A", confidence := 9/10 },
   { agentId := "a2", value := "A", confidence := 3/5 },
   { agentId := "a3", value := "B", confidence := 19/20 }]

/-- Counterexample for C1: on the scenario's inputs the voting rule — as the
claim itself states it, normalizing the winning bucket's summed confidence by
the total number of agents — yields final confidence (0.9+0.6)/3 = 1/2, not
the claimed (0.9+0.6)/2.45 (which would be normalization by the total summed
confidence). -/
theorem voting_scenario_confidence_mismatch :
    votingConsensus c1results = some ("A", 1/2) ∧
    ((9 : Rat)/10 + 3/5) / (49/20) ≠ 1/2 := by
  constructor
  · simp [votingConsensus, winningBucket, buckets, addToBuckets, betterBucket,
      Bucket.count, Bucket.sumConfidence, c1results]
    norm_num
  · norm_num

/-- Claim C1 as amended: on results "A"/0.9, "A"/0.6, "B"/0.95 the voting
consensus picks value "A" (largest bucket; ties would fall to summed
confidence, then to the earliest-received result) with final confidence
(0.9+0.6)/3 — the winning bucket's summed confidence normalized by the total
number of agents. -/
theorem voting_scenario_result :
    votingConsensus c1results = some ("A", ((9 : Rat)/10 + 3/5) / 3) := by
  simp [votingConsensus, winningBucket, buckets, addToBuckets, betterBucket,
    Bucket.count, Bucket.sumConfidence, c1results]

/-- Every node dispatched in a chain starting at index `i` has index ≥ `i`. -/
theorem seqTrace_dispatch_ge (pol : SeqPolicy) (os : List AgentOutcome) :
    ∀ (i n : Nat), Event.dispatch n ∈ seqTrace pol i os → i ≤ n := by
  induction os with
  | nil => intro i n h; simp [seqTrace] at h
  | cons o rest ih =>
    intro i n h
    cases o with
    | success v =>
      simp only [seqTrace, List.mem_cons] at h
      rcases h with h | h | h
      · injection h with h; omega
      · exact absurd h (by simp)
      · have := ih (i + 1) n h; omega
    | failure =>
      cases pol with
      | failFast =>
        simp only [seqTrace, List.mem_cons, List.not_mem_nil, or_false] at h
        rcases h with h | h
        · injection h with h; omega
        · exact absurd h (by simp)
      | skipAndContinue =>
        simp only [seqTrace, List.mem_cons] at h
        rcases h with h | h | h
        · injection h with h; omega
        · exact absurd h (by simp)
        · have := ih (i + 1) n h; omega

/-- In a chain starting at index `i ≤ n`, the dispatch of node `n+1` is always
preceded in the trace by the return of node `n`. -/
theorem seqTrace_ret_before (pol : SeqPolicy) (os : List AgentOutcome) :
    ∀ (i n j : Nat), i ≤ n →
      (seqTrace pol i os).get? j = some (Event.dispatch (n + 1)) →
      ∃ k, k < j ∧ ∃ b, (seqTrace pol i os).get? k = some (Event.ret n b) := by
  induction os with
  | nil => intro i n j _ h; simp [seqTrace] at h
  | cons o rest ih =>
    intro i n j hin h
    cases o with
    | success v =>
      match j with
      | 0 =>
        simp only [seqTrace, List.get?] at h
        injection h with h
        injection h with h
        omega
      | 1 =>
        simp only [seqTrace, List.get?] at h
        exact absurd h (by simp)
      | Nat.succ (Nat.succ j') =>
        simp only [seqTrace, List.get?] at h
        by_cases hni : n = i
        · subst hni
          exact ⟨1, by omega, true, rfl⟩
        · have hge : i + 1 ≤ n := by omega
          obtain ⟨k, hk, b, hb⟩ := ih (i + 1) n j' hge h
          exact ⟨k + 2, by omega, b, hb⟩
    | failure =>
      cases pol with
      | failFast =>
        match j with
        | 0 =>
          simp only [seqTrace, List.get?] at h
          injection h with h
          injection h with h
          omega
        | 1 =>
          simp only [seqTrace, List.get?] at h
          exact absurd h (by simp)
        | Nat.succ (Nat.succ j') =>
          simp only [seqTrace, List.get?] at h
          exact absurd h (by simp)
      | skipAndContinue =>
        match j with
        | 0 =>
          simp only [seqTrace, List.get?] at h
          injection h with h
          injection h with h
          omega
        | 1 =>
          simp only [seqTrace, List.get?] at h
          exact absurd h (by simp)
        | Nat.succ (Nat.succ j') =>
          simp only [seqTrace, List.get?] at h
          by_cases hni : n = i
          · subst hni
            exact ⟨1, by omega, false, rfl⟩
          · have hge : i + 1 ≤ n := by omega
            obtain ⟨k, hk, b, hb⟩ := ih (i + 1) n j' hge h
            exact ⟨k + 2, by omega, b, hb⟩

/-- Under fail-fast, once node `n` of the remaining chain fails, the node
after it is never dispatched. -/
theorem seqTrace_failFast_stops (os : List AgentOutcome) :
    ∀ (i n : Nat), os.get? n = some AgentOutcome.failure →
      Event.dispatch (i + n + 1) ∉ seqTrace SeqPolicy.failFast i os := by
  induction os with
  | nil => intro i n h; simp at h
  | cons o rest ih =>
    intro i n h hmem
    cases o with
    | failure =>
      simp only [seqTrace, List.mem_cons, List.not_mem_nil, or_false] at hmem
      rcases hmem with hmem | hmem
      · injection hmem with hmem; omega
      · exact absurd hmem (by simp)
    | success v =>
      match n, h with
      | Nat.succ n', h =>
        simp only [List.get?] at h
        simp only [seqTrace, List.mem_cons] at hmem
        rcases hmem with hmem | hmem | hmem
        · injection hmem with hmem; omega
        · exact absurd hmem (by simp)
        · have harith : i + (n' + 1) + 1 = (i + 1) + n' + 1 := by omega
          rw [harith] at hmem
          exact ih (i + 1) n' h hmem

/-- Claim C6: sequential dispatch is strictly ordered — whenever node `n+1`
is dispatched (at trace position `j`), node `n` has already returned at an
earlier position; and under the fail-fast policy node `n+1` is dispatched
only if node `n` did not fail. -/
theorem sequential_dispatch_order (pol : SeqPolicy) (os : List AgentOutcome) (n j : Nat)
    (hd : (seqTrace pol 0 os).get? j = some (Event.dispatch (n + 1))) :
    (∃ k, k < j ∧ ∃ b, (seqTrace pol 0 os).get? k = some (Event.ret n b)) ∧
    (pol = SeqPolicy.failFast → os.get? n ≠ some AgentOutcome.failure) := by
  constructor
  · exact seqTrace_ret_before pol os 0 n j (Nat.zero_le n) hd
  · rintro rfl hfail
    refine seqTrace_failFast_stops os 0 n hfail ?_
    have hmem := List.get?_mem hd
    simpa using hmem

/-- Concrete outcomes for the C6 witness: two successful nodes. -/
def c6outcomes : List AgentOutcome :=
  [AgentOutcome.success "x", AgentOutcome.success "y"]

/-- Witness for C6 at a concrete two-node chain under fail-fast. -/
theorem sequential_dispatch_order_witness :
    (∃ k, k < 2 ∧ ∃ b,
      (seqTrace SeqPolicy.failFast 0 c6outcomes).get? k = some (Event.ret 0 b)) ∧
    (SeqPolicy.failFast = SeqPolicy.failFast →
      c6outcomes.get? 0 ≠ some AgentOutcome.failure) :=
  sequential_dispatch_order SeqPolicy.failFast c6outcomes 0 2 rfl
